import Mathlib

/-
  Verification development for the Journalite journaling application.

  The subsystems under study are the field-level encryption layer
  (src/services/fieldEncryption.js), the in-memory TTL cache
  (src/utils/cacheUtils.js), and the analytics fallback pipeline
  (src/services/analyticsService.js, src/services/aiService.js,
  src/components/insights/Insights.js).  JavaScript runtime values are
  modelled shallowly: objects become structures or association lists in
  insertion order, JavaScript numbers become Int or Rat, truthiness is
  made explicit, and exceptions become Except.
-/

namespace Journalite

/-- A JavaScript scalar value as it occurs in the cache layer.  Numbers are
modelled as integers; the claims under study only exercise null, booleans,
integers and strings.  Objects and arrays are collapsed into one
constructor carrying named fields, which is enough to decide truthiness. -/
inductive JSValue where
  | null
  | bool (b : Bool)
  | num (n : Int)
  | str (s : String)
  | obj (fields : List (String × JSValue))

/-- JavaScript truthiness for JSValue: null, false, 0 and the empty string
are falsy; every object is truthy. -/
def JSValue.truthy : JSValue → Bool
  | .null => false
  | .bool b => b
  | .num n => n != 0
  | .str s => s != ""
  | .obj _ => true

/-- Lookup in a JavaScript object modelled as an association list. -/
def lookupEntry (key : String) : List (String × α) → Option α
  | [] => none
  | (k, v) :: rest => if k = key then some v else lookupEntry key rest

/-- Assignment obj[key] = v : overwrite in place or append. -/
def setEntry (key : String) (v : α) : List (String × α) → List (String × α)
  | [] => [(key, v)]
  | (k, w) :: rest => if k = key then (k, v) :: rest else (k, w) :: setEntry key v rest

/-- The delete operator on a JavaScript object key. -/
def removeEntry (key : String) : List (String × α) → List (String × α)
  | [] => []
  | (k, w) :: rest => if k = key then rest else (k, w) :: removeEntry key rest

namespace CacheUtils

/-- One stored record of the in-memory cache: the raw value together with
its absolute expiry instant in epoch milliseconds (cacheUtils.js, set). -/
structure CacheItem where
  value : JSValue
  expiry : Int

/-- The Cache class of cacheUtils.js: a key-indexed object of items plus
the default maximum age in milliseconds given to the constructor. -/
structure Cache where
  cache : List (String × CacheItem)
  maxAge : Int

/-- Cache.get (cacheUtils.js lines 15-26).  Current time is passed
explicitly in place of Date.now().  Returns the JavaScript result (null on
miss or expiry) together with the possibly mutated cache, since an expired
item is deleted on read. -/
def Cache.get (c : Cache) (now : Int) (key : String) : JSValue × Cache :=
  match lookupEntry key c.cache with
  | none => (JSValue.null, c)
  | some item =>
    if now > item.expiry then
      (JSValue.null, { c with cache := removeEntry key c.cache })
    else
      (item.value, c)

/-- The expression customMaxAge || this.maxAge from Cache.set: an absent
argument and the number 0 are both falsy, so both fall back to the default
maxAge; any non-zero number (negative included) is used as given. -/
def jsOrMaxAge (customMaxAge : Option Int) (maxAge : Int) : Int :=
  match customMaxAge with
  | none => maxAge
  | some t => if t = 0 then maxAge else t

/-- Cache.set (cacheUtils.js lines 34-37): stores the value with expiry
Date.now() + (customMaxAge || this.maxAge). -/
def Cache.set (c : Cache) (now : Int) (key : String) (v : JSValue)
    (customMaxAge : Option Int) : Cache :=
  { c with cache := setEntry key ⟨v, now + jsOrMaxAge customMaxAge c.maxAge⟩ c.cache }

/-- withCache (cacheUtils.js lines 80-93).  fn is a pure computation; the
third component of the result records whether fn was executed, which the
source observes as fn running and its result being written through.  When
forceRefresh is not set, the cached result is served only when it is
truthy: the lookup result null on a miss and any stored falsy value are
indistinguishable to the `if (cachedResult)` test. -/
def withCache (fn : Unit → JSValue) (cacheKey : String) (cache : Cache)
    (now : Int) (forceRefresh : Bool) : JSValue × Cache × Bool :=
  if forceRefresh then
    let result := fn ()
    (result, cache.set now cacheKey result none, true)
  else
    let probe := cache.get now cacheKey
    if probe.1.truthy then
      (probe.1, probe.2, false)
    else
      let result := fn ()
      (result, probe.2.set now cacheKey result none, true)

end CacheUtils

namespace FieldEncryption

/-- A journal entry field as the encryption layer sees it: absent
(null/undefined), a plain string, or the tagged object written by
encryptField carrying _encrypted = true and the ciphertext in _value.
The external CryptoJS AES is modelled as an ideal cipher, so the tagged
object is represented by the encryption key together with the plaintext
it protects; decryption with the same key recovers the plaintext and
decryption with any other key yields the empty string, which is how
CryptoJS surfaces a wrong-key or corrupted payload to the caller. -/
inductive JSField where
  | null
  | str (s : String)
  | enc (key : String) (data : String)
deriving DecidableEq

/-- JavaScript truthiness of a field value. -/
def JSField.truthy : JSField → Bool
  | .null => false
  | .str s => s != ""
  | .enc _ _ => true

/-- The test used by decryptJournalEntry: the field is an object carrying
_encrypted = true. -/
def JSField.isEncryptedObj : JSField → Bool
  | .enc _ _ => true
  | _ => false

/-- The fixed application-level salt mixed into key derivation
(fieldEncryption.js line 19). -/
def secretSalt : String := "journalite_secret_salt"

/-- CryptoJS.SHA256(s).toString() is external to the repository; it is
modelled as an ideal, collision-free digest and represented by tagging
its input, which keeps the derivation deterministic and injective. -/
def sha256hex (s : String) : String := s ++ "|sha256-hex"

/-- The derived key value for a given user uid. -/
def generateKeyStr (userUid : String) : String := sha256hex (userUid ++ secretSalt)

/-- generateKey (fieldEncryption.js lines 14-20): a missing uid throws;
otherwise the key is the digest of uid concatenated with the salt. -/
def generateKey (userUid : String) : Except String String :=
  if userUid = "" then .error "User UID is required for encryption"
  else .ok (generateKeyStr userUid)

/-- Ideal-cipher model of CryptoJS.AES.decrypt(..).toString(Utf8): the
right key recovers the plaintext, any other key produces the empty
string. -/
def aesDecrypt (payloadKey payloadData suppliedKey : String) : String :=
  if suppliedKey = payloadKey then payloadData else ""

/-- encryptField (fieldEncryption.js lines 25-42): a falsy or non-string
value is returned unchanged; otherwise the value is AES-encrypted under
the derived key and wrapped in the tagged object.  A generateKey throw is
caught and re-thrown as a field-encryption error. -/
def encryptField (value : JSField) (userUid : String) : Except String JSField :=
  match value with
  | .str s =>
    if s = "" then .ok (.str s)
    else
      match generateKey userUid with
      | .ok key => .ok (.enc key s)
      | .error _ => .error "Failed to encrypt field"
  | v => .ok v

/-- The well-known placeholder returned when a field cannot be decrypted
(fieldEncryption.js line 66). -/
def decryptionFailedSentinel : String := "[Decryption Failed]"

/-- decryptField (fieldEncryption.js lines 47-68): a value that is not the
tagged encrypted object is returned as-is; otherwise AES decryption is
attempted and an empty result, like any thrown error, is converted to the
sentinel string.  The function is total: it never propagates an
exception. -/
def decryptField (encryptedField : JSField) (userUid : String) : JSField :=
  match encryptedField with
  | .enc key data =>
    match generateKey userUid with
    | .error _ => .str decryptionFailedSentinel
    | .ok k =>
      let decrypted := aesDecrypt key data k
      if decrypted = "" then .str decryptionFailedSentinel
      else .str decrypted
  | v => v

/-- A journal entry as the encryption layer sees it: the two sensitive
fields, the encryption marker and field-name list (absent encoded as
false resp. none), and every remaining field (id, mood, tags, timestamps,
image references, privacy flag, owner) collected verbatim in an
association list in object-key order. -/
structure Entry where
  title : JSField := .null
  content : JSField := .null
  hasEncryptedFields : Bool := false
  encryptedFields : Option (List String) := none
  others : List (String × JSField) := []
deriving DecidableEq

/-- The id property read by decryptJournalEntries when recording an
error; undefined when the entry has no id field. -/
def Entry.idField (e : Entry) : Option JSField := lookupEntry "id" e.others

/-- Return shape of encryptJournalEntry. -/
structure EncryptResult where
  success : Bool
  encryptedEntry : Option Entry
  error : Option String
deriving DecidableEq

/-- Return shape of decryptJournalEntry. -/
structure DecryptResult where
  success : Bool
  decryptedEntry : Entry
  error : Option String
deriving DecidableEq

/-- One element of the errors list built by decryptJournalEntries. -/
structure BatchError where
  index : Nat
  entryId : Option JSField
  error : Option String
deriving DecidableEq

/-- Return shape of decryptJournalEntries. -/
structure BatchResult where
  success : Bool
  decryptedEntries : List Entry
  errors : List BatchError
deriving DecidableEq

/-- The exception-free core of encryptJournalEntry (fieldEncryption.js
lines 73-93): spread the entry, encrypt title and content when truthy,
then set the marker and the encrypted-field-name list. -/
def encryptJournalEntryE (entry : Entry) (userUid : String) : Except String Entry :=
  match (if entry.title.truthy then encryptField entry.title userUid
         else .ok entry.title) with
  | .error e => .error e
  | .ok t =>
    match (if entry.content.truthy then encryptField entry.content userUid
           else .ok entry.content) with
    | .error e => .error e
    | .ok c =>
      .ok { entry with
              title := t, content := c,
              hasEncryptedFields := true,
              encryptedFields := some ["title", "content"] }

/-- encryptJournalEntry (fieldEncryption.js lines 73-101): a thrown
encryption error is converted into a failure result instead of
propagating. -/
def encryptJournalEntry (entry : Entry) (userUid : String) : EncryptResult :=
  match encryptJournalEntryE entry userUid with
  | .ok e => ⟨true, some e, none⟩
  | .error msg => ⟨false, none, some msg⟩

/-- decryptJournalEntry (fieldEncryption.js lines 106-143): an entry
without the marker is returned unchanged; otherwise title and content are
decrypted when they are tagged encrypted objects and the marker and
field-name list are deleted.  decryptField never throws, so the catch
branch of the source is unreachable and the result always reports
success. -/
def decryptJournalEntry (encryptedEntry : Entry) (userUid : String) : DecryptResult :=
  if !encryptedEntry.hasEncryptedFields then
    ⟨true, encryptedEntry, none⟩
  else
    let d1 := if encryptedEntry.title.isEncryptedObj
              then decryptField encryptedEntry.title userUid
              else encryptedEntry.title
    let d2 := if encryptedEntry.content.isEncryptedObj
              then decryptField encryptedEntry.content userUid
              else encryptedEntry.content
    ⟨true,
      { encryptedEntry with
          title := d1, content := d2,
          hasEncryptedFields := false, encryptedFields := none },
      none⟩

/-- The forEach body of decryptJournalEntries, indexed from i: a
successful per-entry result is appended to the output, a failed one keeps
the original entry in the output and records index, id and error. -/
def decryptEntriesGo (userUid : String) : Nat → List Entry → List Entry × List BatchError
  | _, [] => ([], [])
  | i, e :: rest =>
    let r := decryptJournalEntry e userUid
    let tail := decryptEntriesGo userUid (i + 1) rest
    if r.success then (r.decryptedEntry :: tail.1, tail.2)
    else (e :: tail.1, ⟨i, e.idField, r.error⟩ :: tail.2)

/-- decryptJournalEntries (fieldEncryption.js lines 148-173). -/
def decryptJournalEntries (encryptedEntries : List Entry) (userUid : String) : BatchResult :=
  let go := decryptEntriesGo userUid 0 encryptedEntries
  ⟨go.2.isEmpty, go.1, go.2⟩

/-- A sample stored entry whose title was encrypted under the key derived
for userA, used to exercise wrong-key batch decryption. -/
def wrongKeyEntry : Entry :=
  { title := .enc (generateKeyStr "userA") "Secret",
    content := .null,
    hasEncryptedFields := true,
    encryptedFields := some ["title", "content"],
    others := [("id", .str "e1"), ("mood", .str "happy")] }

/-- A sample plaintext working entry. -/
def sampleEntry : Entry :=
  { title := .str "Hi",
    content := .str "Dear diary",
    hasEncryptedFields := false,
    encryptedFields := none,
    others := [("id", .str "e1"), ("mood", .str "happy"), ("isPrivate", .str "true")] }

end FieldEncryption

namespace Analytics

/-- The observations the analytics code makes of a JavaScript Date object:
getTime for comparator-based sorting, toISOString().split at the letter T
for the UTC calendar date, getDay and getHours for local day-of-week
(0 = Sunday) and hour of day.  A Firestore timestamp is converted with
toDate before these are read. -/
structure JSDate where
  epochMs : Int := 0
  isoDate : String := ""
  day : Nat := 0
  hour : Nat := 0
deriving DecidableEq

/-- A decrypted working journal entry as the analytics layer consumes it;
absent fields are none. -/
structure AEntry where
  id : String := ""
  title : Option String := none
  content : Option String := none
  mood : Option String := none
  createdAt : Option JSDate := none
  tags : Option (List String) := none
deriving DecidableEq

/-- String.prototype.toLowerCase, implemented character-wise over the
underlying character list (the journal moods and words are ASCII). -/
def lowerStr (s : String) : String := ⟨s.data.map Char.toLower⟩

/-- The capitalisation expression emotion.charAt(0).toUpperCase() plus
emotion.slice(1), implemented over the character list. -/
def capitalizeStr (s : String) : String :=
  match s.data with
  | [] => ""
  | c :: cs => ⟨c.toUpper :: cs⟩

/-- String.prototype.trim, implemented over the character list. -/
def trimStr (s : String) : String :=
  ⟨((s.data.dropWhile Char.isWhitespace).reverse.dropWhile Char.isWhitespace).reverse⟩

/-- The truthiness test if (entry.mood). -/
def moodTruthy (e : AEntry) : Bool :=
  match e.mood with
  | some s => s != ""
  | none => false

/-- The expression entry.mood || the neutral fallback used by the
analytics service heuristics. -/
def moodOrNeutral (e : AEntry) : String :=
  match e.mood with
  | some s => if s = "" then "neutral" else s
  | none => "neutral"

/-- The concatenation of entry.title || empty and entry.content || empty
with the single space the template literal inserts. -/
def textOf (e : AEntry) : String := e.title.getD "" ++ " " ++ e.content.getD ""

/-- The date key entry.createdAt toDate toISOString split at T, first
component, with the current date as fallback when the timestamp chain is
absent or produces a falsy string. -/
def dateKey (e : AEntry) (today : String) : String :=
  match e.createdAt with
  | some d => if d.isoDate = "" then today else d.isoDate
  | none => today

/-- Math.round on an exact rational: floor of x + one half, which is how
JavaScript rounds ties (toward positive infinity). -/
def jsRound (q : Rat) : Int := Int.floor (q + 1/2)

/-- Number.prototype.toFixed with two digits, on an exact rational: the
nearest multiple of one hundredth, ties toward the larger value. -/
def jsToFixed2 (q : Rat) : Rat := ((jsRound (q * 100) : Rat)) / 100

/-- The keys of a JavaScript object with string keys, in insertion order:
the first occurrence order of the underlying assignments. -/
def firstSeen [DecidableEq α] : List α → List α
  | [] => []
  | x :: xs => x :: (firstSeen xs).filter (fun y => y ≠ x)

/-- Stable descending insertion by an integer measure, modelling the
stable Array.prototype.sort with comparator b minus a: an element is
placed before the first strictly smaller one, so earlier elements keep
their position among equals. -/
def insertDescBy (keyOf : α → Int) (x : α) : List α → List α
  | [] => [x]
  | y :: ys => if keyOf x ≥ keyOf y then x :: y :: ys else y :: insertDescBy keyOf x ys

/-- Stable sort, descending in the given integer measure. -/
def sortDescBy (keyOf : α → Int) (l : List α) : List α := l.foldr (insertDescBy keyOf) []

/-- Stable ascending insertion by a string key, modelling the stable sort
with comparator new Date(a) minus new Date(b) on ISO yyyy-mm-dd dates,
whose chronological order coincides with the lexicographic one. -/
def insertAscStr (keyOf : α → String) (x : α) : List α → List α
  | [] => [x]
  | y :: ys => if keyOf x ≤ keyOf y then x :: y :: ys else y :: insertAscStr keyOf x ys

/-- Stable sort, ascending in the given string key. -/
def sortAscStr (keyOf : α → String) (l : List α) : List α := l.foldr (insertAscStr keyOf) []

/-- Stable ascending insertion by an integer key (sort by getTime). -/
def insertAscInt (keyOf : α → Int) (x : α) : List α → List α
  | [] => [x]
  | y :: ys => if keyOf x ≤ keyOf y then x :: y :: ys else y :: insertAscInt keyOf x ys

/-- Stable sort, ascending in the given integer key. -/
def sortAscInt (keyOf : α → Int) (l : List α) : List α := l.foldr (insertAscInt keyOf) []

/-- getEmotionEmoji (analyticsService.js lines 974-983 and the identical
map in aiMoodAnalysisService). -/
def getEmotionEmoji (emotion : String) : String :=
  match lowerStr emotion with
  | "happy" => "😊" | "sad" => "😢" | "angry" => "😠" | "anxious" => "😟"
  | "excited" => "🤩" | "calm" => "😌" | "neutral" => "😐" | "grateful" => "🙏"
  | "frustrated" => "😤" | "hopeful" => "🌟" | "lonely" => "😔" | "confident" => "😎"
  | "overwhelmed" => "😵" | "peaceful" => "☮️" | "energetic" => "⚡"
  | "melancholy" => "🌧️" | "optimistic" => "🌈" | "stressed" => "😰"
  | "content" => "😌" | "disappointed" => "😞"
  | _ => "😐"

/-- One element of the emotion distribution produced by the analytics
service Tier-3 fallback. -/
structure DistEntry where
  name : String
  value : Int
  count : Nat
  emoji : String
  intensity : String
  trend : String
deriving DecidableEq

/-- The insights sub-object of the simple distribution result. -/
structure DistInsights where
  dominantEmotions : List String
  emotionalComplexity : String
  emotionalStability : String
deriving DecidableEq

/-- Return shape of the emotion distribution capability; insights and
source are absent (none) in the zero-entry early return. -/
structure EmotionDistResult where
  success : Bool
  distribution : List DistEntry
  insights : Option DistInsights
  source : Option String
deriving DecidableEq

/-- analyzeEmotionDistributionSimple (analyticsService.js lines 298-328):
every entry contributes, a missing or empty mood counting as neutral; the
denominator is the total number of entries; percentages are
Math.round(count / total * 100); rows are sorted descending by value. -/
def analyzeEmotionDistributionSimple (entries : List AEntry) : EmotionDistResult :=
  let moods := entries.map moodOrNeutral
  let total := entries.length
  let distribution := sortDescBy (fun d => d.value)
    ((firstSeen moods).map (fun emotion =>
      ⟨capitalizeStr emotion,
       jsRound ((moods.count emotion : Rat) / (total : Rat) * 100),
       moods.count emotion,
       getEmotionEmoji emotion, "moderate", "stable"⟩))
  ⟨true, distribution,
   some ⟨(distribution.take 3).map (fun d => lowerStr d.name), "moderate", "stable"⟩,
   some "simple"⟩

/-- One element of the emotion distribution produced by
aiService.analyzeEmotionDistribution, which carries no count field. -/
structure AIDistEntry where
  name : String
  value : Int
  emoji : String
deriving DecidableEq

/-- aiService.analyzeEmotionDistribution (aiService.js lines 123-147):
despite living in the AI service it is pure counting; only entries with a
truthy mood are counted and the denominator is the number of such
entries, so moodless entries are excluded from numerator and
denominator alike. -/
def aiAnalyzeEmotionDistribution (entries : List AEntry) : List AIDistEntry :=
  let moodsPresent := (entries.filter moodTruthy).map (fun e => e.mood.getD "")
  let totalEntries := moodsPresent.length
  sortDescBy (fun d => d.value)
    ((firstSeen moodsPresent).map (fun emotion =>
      ⟨capitalizeStr emotion,
       jsRound ((moodsPresent.count emotion : Rat) / (totalEntries : Rat) * 100),
       getEmotionEmoji emotion⟩))

/-- The fixed mood-to-polarity lookup table of
generateSimpleSentimentAnalysis (Insights.js lines 366-369); the
expression sentimentMap at entry.mood || 0 sends every unknown or absent
mood to 0. -/
def sentimentScore (mood : Option String) : Rat :=
  match mood with
  | some "happy" => 1
  | some "excited" => (4 : Rat)/5
  | some "grateful" => (7 : Rat)/10
  | some "calm" => (3 : Rat)/10
  | some "neutral" => 0
  | some "anxious" => -((3 : Rat)/10)
  | some "sad" => -((7 : Rat)/10)
  | some "angry" => -((9 : Rat)/10)
  | some "frustrated" => -((3 : Rat)/5)
  | some "stressed" => -((1 : Rat)/2)
  | _ => 0

/-- One point of the sentiment-over-time series of the Insights.js
fallback. -/
structure SentPoint where
  date : String
  sentiment : Rat
deriving DecidableEq

/-- The per-entry (date, score) list built first by
generateSimpleSentimentAnalysis. -/
def sentimentDataOf (entriesData : List AEntry) (today : String) : List (String × Rat) :=
  entriesData.map (fun e => (dateKey e today, sentimentScore e.mood))

/-- The scores contributed by the entries of one calendar date. -/
def dateScores (entriesData : List AEntry) (today : String) (d : String) : List Rat :=
  ((sentimentDataOf entriesData today).filter (fun p => p.1 == d)).map (fun p => p.2)

/-- Return shape of generateSimpleSentimentAnalysis: the three
distribution buckets and the over-time series. -/
structure SimpleSentimentResult where
  positiveCount : Nat
  neutralCount : Nat
  negativeCount : Nat
  overTime : List SentPoint
deriving DecidableEq

/-- generateSimpleSentimentAnalysis (Insights.js lines 364-404): map each
entry to its polarity score, group by calendar date, average per date and
sort the dates ascending. -/
def generateSimpleSentimentAnalysis (entriesData : List AEntry) (today : String) :
    SimpleSentimentResult :=
  let sentimentData := sentimentDataOf entriesData today
  let dates := firstSeen (sentimentData.map (fun p => p.1))
  let overTime := (sortAscStr id dates).map (fun d =>
    let scores := dateScores entriesData today d
    (⟨d, scores.sum / (scores.length : Rat)⟩ : SentPoint))
  ⟨(sentimentData.filter (fun p => p.2 > 0)).length,
   (sentimentData.filter (fun p => p.2 = 0)).length,
   (sentimentData.filter (fun p => p.2 < 0)).length,
   overTime⟩

/-- The categorical positive mood list of generateSentimentOverTime
(analyticsService.js line 485). -/
def positiveMoods : List String :=
  ["happy", "excited", "grateful", "calm", "confident", "hopeful",
   "optimistic", "peaceful", "content"]

/-- The categorical negative mood list of generateSentimentOverTime
(analyticsService.js line 486). -/
def negativeMoods : List String :=
  ["sad", "angry", "anxious", "frustrated", "lonely", "overwhelmed",
   "stressed", "disappointed"]

/-- One point of the sentiment-over-time series of the analytics
service. -/
structure STPoint where
  date : String
  score : Rat
  positive : Int
  neutral : Int
  negative : Int
deriving DecidableEq

/-- generateSentimentOverTime (analyticsService.js lines 468-515): counts
positive, negative and neutral moods per date and scores each date as
(positive - negative) / total to two fixed digits; structurally different
from the polarity-table average of the Insights.js fallback. -/
def generateSentimentOverTime (entries : List AEntry) (today : String) : List STPoint :=
  if entries.length = 0 then []
  else
    let dates := firstSeen (entries.map (fun e => dateKey e today))
    (sortAscStr id dates).map (fun d =>
      let dayEntries := entries.filter (fun e => dateKey e today == d)
      let pos := (dayEntries.filter (fun e => positiveMoods.contains (moodOrNeutral e))).length
      let neg := (dayEntries.filter (fun e => negativeMoods.contains (moodOrNeutral e))).length
      let total := dayEntries.length
      ⟨d, jsToFixed2 (((pos : Rat) - (neg : Rat)) / (total : Rat)),
       jsRound ((pos : Rat) / (total : Rat) * 100),
       jsRound (((total - pos - neg : Nat) : Rat) / (total : Rat) * 100),
       jsRound ((neg : Rat) / (total : Rat) * 100)⟩)

/-- One row of the emotions-over-time chart: the date and, for every mood
seen anywhere in the data set, that date's raw count (0 when absent, for
consistent charting). -/
structure EmoRow where
  date : String
  counts : List (String × Nat)
deriving DecidableEq

/-- generateEmotionsOverTime (analyticsService.js lines 523-563). -/
def generateEmotionsOverTime (entries : List AEntry) (today : String) : List EmoRow :=
  if entries.length = 0 then []
  else
    let allEmotions := firstSeen (entries.map moodOrNeutral)
    let dates := firstSeen (entries.map (fun e => dateKey e today))
    (sortAscStr id dates).map (fun d =>
      let dayEntries := entries.filter (fun e => dateKey e today == d)
      ⟨d, allEmotions.map (fun m =>
        (m, (dayEntries.filter (fun e => moodOrNeutral e == m)).length))⟩)

/-- The stop-word set of generateWordCloudSimple (analyticsService.js
lines 409-415). -/
def stopWords : List String :=
  ["the", "a", "an", "and", "or", "but", "in", "on", "at", "to", "for",
   "of", "with", "is", "was", "are", "been", "be", "have", "has", "had",
   "do", "does", "did", "will", "would", "could", "should", "may", "might",
   "i", "you", "he", "she", "it", "we", "they", "my", "your", "his", "her",
   "its", "our", "their", "this", "that", "these", "those"]

/-- A JavaScript regex word character (letters, digits, underscore). -/
def isWordChar (c : Char) : Bool := c.isAlphanum || c == '_'

/-- The matches of the word-cloud token regex, which accepts runs of at
least three lowercase ASCII letters delimited by word boundaries: a
maximal word-character run is a token exactly when it consists solely of
lowercase letters and is long enough. -/
def tokensOf (text : String) : List String :=
  (text.split (fun c => !(isWordChar c))).filter
    (fun w => w.length ≥ 3 && w.toList.all (fun c => c.isLower))

/-- The token stream of generateWordCloudSimple: lower-cased title and
content of each entry in order, tokenized, stop words dropped. -/
def allTokens (entries : List AEntry) : List String :=
  (entries.map (fun e => (tokensOf (lowerStr (textOf e))).filter
    (fun w => !stopWords.contains w))).flatten

/-- The small positive lexicon of getWordSentiment (analyticsService.js
line 454). -/
def positiveWordsWC : List String :=
  ["happy", "joy", "love", "excited", "great", "amazing", "wonderful",
   "grateful", "success", "achieved"]

/-- The small negative lexicon of getWordSentiment (analyticsService.js
line 455). -/
def negativeWordsWC : List String :=
  ["sad", "angry", "frustrated", "stressed", "anxious", "worried", "tired",
   "upset", "failed", "difficult"]

/-- getWordSentiment (analyticsService.js lines 453-460). -/
def getWordSentiment (word : String) : String :=
  if positiveWordsWC.contains word then "positive"
  else if negativeWordsWC.contains word then "negative"
  else "neutral"

/-- One word of the simple word cloud. -/
structure WordEntry where
  text : String
  frequency : Nat
  sentiment : String
  color : String
  size : Int
deriving DecidableEq

/-- The insights sub-object of the simple word cloud result. -/
structure WCInsights where
  themes : List String
  emotionalTone : String
deriving DecidableEq

/-- Return shape of the word-cloud capability; insights and source are
absent (none) in the zero-entry early return. -/
structure WordCloudResult where
  success : Bool
  words : List WordEntry
  insights : Option WCInsights
  source : Option String
deriving DecidableEq

/-- generateWordCloudSimple (analyticsService.js lines 407-451): count
token frequencies, sort descending, keep the top 30, attach lexicon
sentiment, its color, and the bounded size 14 + min(frequency * 2, 20). -/
def generateWordCloudSimple (entries : List AEntry) : WordCloudResult :=
  let toks := allTokens entries
  let sortedWords :=
    ((sortDescBy (fun p => (p.2 : Int))
      ((firstSeen toks).map (fun w => (w, toks.count w)))).take 30).map
      (fun p =>
        let sentiment := getWordSentiment p.1
        (⟨p.1, p.2, sentiment,
          if sentiment = "positive" then "#10B981"
          else if sentiment = "negative" then "#EF4444" else "#6B7280",
          14 + min ((p.2 : Int) * 2) 20⟩ : WordEntry))
  ⟨true, sortedWords, some ⟨[], "mixed"⟩, some "simple"⟩

/-- The day names indexed by getDay (analyticsService.js line 599). -/
def dayNames : List String :=
  ["Sunday", "Monday", "Tuesday", "Wednesday", "Thursday", "Friday", "Saturday"]

/-- The word count of an entry text: split on whitespace runs, drop empty
fragments. -/
def wordCount (text : String) : Nat :=
  ((text.split (fun c => c.isWhitespace)).filter (fun w => w.length > 0)).length

/-- entry.createdAt toDate with the current Date as fallback. -/
def dateOrNow (e : AEntry) (nowDate : JSDate) : JSDate := e.createdAt.getD nowDate

/-- The time-of-day bucket boundaries used by the analytics service
(analyticsService.js lines 624-627 and 794-797). -/
def timeOfDayOf (hour : Nat) : String :=
  if 5 ≤ hour ∧ hour < 12 then "morning"
  else if 12 ≤ hour ∧ hour < 17 then "afternoon"
  else if 17 ≤ hour ∧ hour < 21 then "evening"
  else "night"

/-- One row of the writing-times table. -/
structure WTimeRow where
  time : String
  count : Nat
  percentage : Int
deriving DecidableEq

/-- One row of the entry-lengths table. -/
structure WLenRow where
  range : String
  count : Nat
  percentage : Int
deriving DecidableEq

/-- One row of the weekly pattern. -/
structure WDayRow where
  day : String
  count : Nat
deriving DecidableEq

/-- The stats block of analyzeWritingPatterns; longest and shortest are
absent (none) in the zero-entry early return, which omits those keys. -/
structure WStats where
  totalEntries : Nat
  totalWords : Nat
  avgWordsPerEntry : Int
  mostActiveDay : String
  mostActiveHour : String
  longestEntry : Option Nat
  shortestEntry : Option Nat
deriving DecidableEq

/-- Return shape of analyzeWritingPatterns. -/
structure WritingPatterns where
  writingTimes : List WTimeRow
  entryLengths : List WLenRow
  weeklyPattern : List WDayRow
  stats : WStats
deriving DecidableEq

/-- analyzeWritingPatterns (analyticsService.js lines 571-709).  Object
keys that are day names iterate in insertion order; the numeric hour keys
of entriesByHour iterate in ascending numeric order, as JavaScript
specifies for integer-like keys, which fixes the tie-break of the most
active hour at the smallest hour. -/
def analyzeWritingPatterns (entries : List AEntry) (nowDate : JSDate) : WritingPatterns :=
  if entries.length = 0 then
    ⟨[], [], [], ⟨0, 0, 0, "N/A", "0", none, none⟩⟩
  else
    let wcounts := entries.map (fun e => wordCount (textOf e))
    let totalWords := wcounts.sum
    let longest := wcounts.foldl max 0
    let shortest := (wcounts.foldl (fun acc wc =>
      match acc with
      | none => some wc
      | some s => some (min s wc)) none).getD 0
    let len0 := (wcounts.filter (fun wc => decide (wc ≤ 100))).length
    let len1 := (wcounts.filter (fun wc => decide (100 < wc ∧ wc ≤ 300))).length
    let len2 := (wcounts.filter (fun wc => decide (300 < wc ∧ wc ≤ 500))).length
    let len3 := (wcounts.filter (fun wc => decide (500 < wc))).length
    let dayList := entries.map (fun e => dayNames.getD (dateOrNow e nowDate).day "")
    let mostProductiveDay :=
      match sortDescBy (fun p => (p.2 : Int))
        ((firstSeen dayList).map (fun d => (d, dayList.count d))) with
      | [] => "N/A"
      | p :: _ => p.1
    let hoursList := entries.map (fun e => (dateOrNow e nowDate).hour)
    let mostActiveHour :=
      match sortDescBy (fun p => (p.2 : Int))
        ((sortAscInt (fun h : Nat => (h : Int)) (firstSeen hoursList)).map
          (fun h => (h, hoursList.count h))) with
      | [] => "N/A"
      | p :: _ => toString p.1 ++ ":00"
    let tods := entries.map (fun e => timeOfDayOf (dateOrNow e nowDate).hour)
    let total := entries.length
    let pct := fun (count : Nat) => jsRound ((count : Rat) / (total : Rat) * 100)
    ⟨[⟨"Morning", tods.count "morning", pct (tods.count "morning")⟩,
      ⟨"Afternoon", tods.count "afternoon", pct (tods.count "afternoon")⟩,
      ⟨"Evening", tods.count "evening", pct (tods.count "evening")⟩,
      ⟨"Night", tods.count "night", pct (tods.count "night")⟩],
     [⟨"0-100 words", len0, pct len0⟩,
      ⟨"100-300 words", len1, pct len1⟩,
      ⟨"300-500 words", len2, pct len2⟩,
      ⟨"500+ words", len3, pct len3⟩],
     dayNames.map (fun d => ⟨d.take 3, dayList.count d⟩),
     ⟨total, totalWords, jsRound ((totalWords : Rat) / (total : Rat)),
      mostProductiveDay, mostActiveHour, some longest, some shortest⟩⟩

/-- One row of the mood-length correlation table. -/
structure MoodLenRow where
  mood : String
  avgLength : Int
  entries : Nat
deriving DecidableEq

/-- The four time-of-day mood histograms. -/
structure TimeOfDayMoods where
  morning : List (String × Nat)
  afternoon : List (String × Nat)
  evening : List (String × Nat)
  night : List (String × Nat)
deriving DecidableEq

/-- Return shape of generateMoodCorrelations. -/
structure MoodCorrelations where
  moodTagCorrelations : List (String × List (String × Nat))
  moodLengthCorrelations : List MoodLenRow
  timeOfDayMoods : TimeOfDayMoods
  transitions : List (String × Nat)
  mostCommonTransition : Option (String × Nat)
deriving DecidableEq

/-- The getTime sort key used when ordering entries for mood transitions;
a missing timestamp becomes new Date(0). -/
def sortKeyOf (e : AEntry) : Int :=
  match e.createdAt with
  | some d => d.epochMs
  | none => 0

/-- generateMoodCorrelations (analyticsService.js lines 717-805). -/
def generateMoodCorrelations (entries : List AEntry) (nowDate : JSDate) : MoodCorrelations :=
  let sortedEntries := sortAscInt sortKeyOf entries
  let transPairs := (sortedEntries.zip sortedEntries.tail).map
    (fun p => moodOrNeutral p.1 ++ "-" ++ moodOrNeutral p.2)
  let transitions := (firstSeen transPairs).map (fun k => (k, transPairs.count k))
  let mooded := entries.filter moodTruthy
  let moodOf := fun (e : AEntry) => e.mood.getD ""
  let moodKeys := firstSeen (mooded.map moodOf)
  let bucket := fun (tod : String) =>
    let ms := (mooded.filter
      (fun e => timeOfDayOf (dateOrNow e nowDate).hour == tod)).map moodOf
    (firstSeen ms).map (fun m => (m, ms.count m))
  ⟨moodKeys.map (fun m =>
      let tagsOfMood := ((mooded.filter (fun e => moodOf e == m)).map
        (fun e => e.tags.getD [])).flatten
      (m, (firstSeen tagsOfMood).map (fun t => (t, tagsOfMood.count t)))),
   moodKeys.map (fun m =>
      let lens := (mooded.filter (fun e => moodOf e == m)).map
        (fun e => wordCount (textOf e))
      ⟨m, jsRound ((lens.sum : Rat) / (lens.length : Rat)), lens.length⟩),
   ⟨bucket "morning", bucket "afternoon", bucket "evening", bucket "night"⟩,
   transitions,
   (sortDescBy (fun p => (p.2 : Int)) transitions).head?⟩

/-- The emotions sub-object of a mood analysis result. -/
structure Emotions where
  primary : String
  secondary : List String
  intensity : String
deriving DecidableEq

/-- The sentiment sub-object of a mood analysis result. -/
structure Sentiment where
  polarity : Rat
  subjectivity : Rat
deriving DecidableEq

/-- Return shape of the mood analysis capability. -/
structure MoodResult where
  success : Bool
  mood : String
  confidence : Rat
  emotions : Emotions
  sentiment : Sentiment
  keywords : List String
  reasoning : String
  source : String
deriving DecidableEq

/-- getDefaultMoodResult (analyticsService.js lines 207-218). -/
def getDefaultMoodResult : MoodResult :=
  ⟨true, "neutral", (1 : Rat)/2, ⟨"neutral", [], "low"⟩, ⟨0, 0⟩, [],
   "No text provided", "default"⟩

/-- A JavaScript runtime error surfacing to the caller. -/
inductive JSError where
  | typeError (message : String)
deriving DecidableEq

/-- The AnalyticsService class body defines analyzeMoodWithHeuristics only
inside a block comment (analyticsService.js lines 137-205), so the method
lookup on the instance yields undefined. -/
def analyzeMoodWithHeuristicsMethod : Option (String → MoodResult) := none

/-- analyzeMood (analyticsService.js lines 65-81).  isAIAvailable models
the presence of the Gemini credential; aiOutcome models the outcome of
analyzeMoodWithAI, with none standing for any thrown failure, which is
caught and falls through to the heuristic tier.  Invoking the undefined
heuristic method raises a TypeError by JavaScript semantics. -/
def analyzeMood (isAIAvailable : Bool) (aiOutcome : Option MoodResult)
    (text : String) : Except JSError MoodResult :=
  if trimStr text = "" then .ok getDefaultMoodResult
  else
    match (if isAIAvailable then aiOutcome else none) with
    | some r => .ok r
    | none =>
      match analyzeMoodWithHeuristicsMethod with
      | some h => .ok (h text)
      | none => .error (.typeError "this.analyzeMoodWithHeuristics is not a function")

/-- The writingPatterns value of an insights bundle: getEmptyInsights
emits a bare three-field stats object, while the computed path emits the
full analyzeWritingPatterns shape. -/
inductive WritingPatternsField where
  | emptyStats (totalEntries totalWords averageWordsPerEntry : Nat)
  | computed (wp : WritingPatterns)
deriving DecidableEq

/-- The six-key insights bundle assembled by
generateComprehensiveInsights.  Every key is a total field of this
structure, so a value of this type can never lack one of the six
capabilities or bind one to undefined. -/
structure Insights where
  emotionDistribution : List DistEntry
  sentimentAnalysis : List STPoint
  emotionsOverTime : List EmoRow
  wordCloud : List WordEntry
  writingPatterns : WritingPatternsField
  moodCorrelations : MoodCorrelations
deriving DecidableEq

/-- The empty mood correlations object of getEmptyInsights, which is also
the initial accumulator shape of generateMoodCorrelations. -/
def emptyMoodCorrelations : MoodCorrelations :=
  ⟨[], [], ⟨[], [], [], []⟩, [], none⟩

/-- getEmptyInsights (analyticsService.js lines 862-886). -/
def getEmptyInsights : Insights :=
  ⟨[], [], [], [], .emptyStats 0 0 0, emptyMoodCorrelations⟩

/-- The envelope returned by generateComprehensiveInsights. -/
structure Envelope where
  success : Bool
  insights : Insights
deriving DecidableEq

/-- analyzeEmotionDistribution (analyticsService.js lines 226-242) on the
local path, with the remote AI tier unavailable: empty input short
circuits, otherwise the simple counting fallback runs. -/
def analyzeEmotionDistributionLocal (entries : List AEntry) : EmotionDistResult :=
  if entries.length = 0 then ⟨true, [], none, none⟩
  else analyzeEmotionDistributionSimple entries

/-- generateWordCloud (analyticsService.js lines 336-352) on the local
path, with the remote AI tier unavailable. -/
def generateWordCloudLocal (entries : List AEntry) : WordCloudResult :=
  if entries.length = 0 then ⟨true, [], none, none⟩
  else generateWordCloudSimple entries

/-- generateComprehensiveInsights (analyticsService.js lines 813-860) on
the local path, with the remote AI tier unavailable: zero entries return
the empty bundle without touching the cache; otherwise the six capability
results are assembled into the bundle, which is also written through to
the cache under the user id (second component). -/
def generateComprehensiveInsightsLocal (userId : String) (entries : List AEntry)
    (nowDate : JSDate) : Envelope × Option (String × Insights) :=
  if entries.length = 0 then (⟨true, getEmptyInsights⟩, none)
  else
    let insights : Insights :=
      ⟨(analyzeEmotionDistributionLocal entries).distribution,
       generateSentimentOverTime entries nowDate.isoDate,
       generateEmotionsOverTime entries nowDate.isoDate,
       (generateWordCloudLocal entries).words,
       .computed (analyzeWritingPatterns entries nowDate),
       generateMoodCorrelations entries nowDate⟩
    (⟨true, insights⟩, some (userId, insights))

/-- A minimal entry carrying only a mood label. -/
def moodOnly (m : String) : AEntry := { mood := some m }

/-- A minimal entry with no mood label at all. -/
def bareEntry : AEntry := {}

/-- An entry with a mood and a concrete stored timestamp date. -/
def moodOnDate (m : String) (d : String) : AEntry :=
  { mood := some m, createdAt := some ⟨0, d, 0, 0⟩ }

end Analytics

end Journalite

open Journalite Journalite.CacheUtils

/-- Looking a key up immediately after setting it yields the new item. -/
theorem lookup_setEntry_self (key : String) (v : α) (l : List (String × α)) :
    lookupEntry key (setEntry key v l) = some v := by
  induction l with
  | nil => simp [setEntry, lookupEntry]
  | cons hd tl ih =>
    by_cases h : hd.1 = key
    · simp [setEntry, lookupEntry, h]
    · simp [setEntry, lookupEntry, h, ih]

/-- C4 counterexample: the claim states that a record stored with a ttl of
0 milliseconds is unreadable immediately afterwards.  On a cache with the
default one-minute maxAge, setting key k with customMaxAge = 0 at time 0
and reading it back at time 0 returns the stored value, not null: the
expression customMaxAge || this.maxAge treats 0 as absent and substitutes
the default maxAge. -/
theorem C4_ttl_zero_counterexample :
    ((Cache.set ⟨[], 60000⟩ 0 "k" (JSValue.str "v") (some 0)).get 0 "k").1
      = JSValue.str "v" := by
  rfl

/-- C4 amended: a record stored with a negative (already elapsed) ttl is
unreadable via get at the store instant and at every later instant, while
a ttl of exactly 0 falls back to the cache's default maxAge.  Here the
negative-ttl half is proved for every cache, key, value and pair of
instants. -/
theorem C4_elapsed_ttl_unreadable (c : Cache) (now later t : Int) (key : String)
    (v : JSValue) (ht : t < 0) (hle : now ≤ later) :
    ((c.set now key v (some t)).get later key).1 = JSValue.null := by
  have hset : lookupEntry key (c.set now key v (some t)).cache
      = some ⟨v, now + jsOrMaxAge (some t) c.maxAge⟩ := by
    exact lookup_setEntry_self key _ c.cache
  have htz : t ≠ 0 := ne_of_lt ht
  have hexp : jsOrMaxAge (some t) c.maxAge = t := by
    simp [jsOrMaxAge, htz]
  have hgt : later > now + t := by omega
  simp [Cache.get, hset, hexp, hgt]

/-- C4 witness: the amended statement evaluated at a concrete store with
ttl -1 at time 5, read back at time 5. -/
theorem C4_elapsed_ttl_unreadable_witness :
    ((Cache.set ⟨[], 60000⟩ 5 "k" (JSValue.str "v") (some (-1))).get 5 "k").1
      = JSValue.null :=
  C4_elapsed_ttl_unreadable ⟨[], 60000⟩ 5 5 (-1) "k" (JSValue.str "v")
    (by decide) (by decide)

/-- C10: when the record stored under a cache key is falsy (null, false, 0
or the empty string) and has not expired, withCache still treats the
lookup as a miss: it executes fn, returns fn's result and overwrites the
cached record with it, so a falsy result is never served from the cache. -/
theorem C10_falsy_cached_value_recomputed (c : Cache) (now : Int) (key : String)
    (fn : Unit → JSValue) (it : CacheItem)
    (hfind : lookupEntry key c.cache = some it)
    (hexp : ¬ now > it.expiry)
    (hfalsy : it.value.truthy = false) :
    (withCache fn key c now false).1 = fn () ∧
    (withCache fn key c now false).2.2 = true ∧
    lookupEntry key (withCache fn key c now false).2.1.cache
      = some ⟨fn (), now + c.maxAge⟩ := by
  have hget : c.get now key = (it.value, c) := by
    simp [Cache.get, hfind, hexp]
  refine ⟨?_, ?_, ?_⟩ <;>
    simp [withCache, hget, hfalsy, Cache.set, jsOrMaxAge, lookup_setEntry_self]

/-- C10 witness: a cache holding the boolean false under key k, unexpired
at time 0; withCache runs fn and stores its fresh result. -/
theorem C10_falsy_cached_value_recomputed_witness :
    (withCache (fun _ => JSValue.str "fresh") "k"
        ⟨[("k", ⟨JSValue.bool false, 100⟩)], 60000⟩ 0 false).1
      = JSValue.str "fresh" ∧
    (withCache (fun _ => JSValue.str "fresh") "k"
        ⟨[("k", ⟨JSValue.bool false, 100⟩)], 60000⟩ 0 false).2.2 = true ∧
    lookupEntry "k" (withCache (fun _ => JSValue.str "fresh") "k"
        ⟨[("k", ⟨JSValue.bool false, 100⟩)], 60000⟩ 0 false).2.1.cache
      = some ⟨JSValue.str "fresh", 0 + 60000⟩ :=
  C10_falsy_cached_value_recomputed ⟨[("k", ⟨JSValue.bool false, 100⟩)], 60000⟩
    0 "k" (fun _ => JSValue.str "fresh") ⟨JSValue.bool false, 100⟩
    rfl (by decide) rfl

open Journalite.FieldEncryption

/-- Cancelling a common suffix of two strings. -/
theorem string_append_right_cancel (a b c : String) (h : a ++ c = b ++ c) : a = b := by
  have hd : a.data ++ c.data = b.data ++ c.data := by
    have h2 := congrArg String.data h
    simpa [String.data_append] using h2
  have hlen : a.data.length = b.data.length := by
    have h3 := congrArg List.length hd
    rw [List.length_append, List.length_append] at h3
    omega
  exact congrArg String.mk (List.append_inj_left hd hlen)

/-- The modelled key derivation is injective: distinct user ids derive
distinct keys. -/
theorem generateKeyStr_injective (u1 u2 : String) (h : generateKeyStr u1 = generateKeyStr u2) :
    u1 = u2 := by
  have h1 : (u1 ++ secretSalt) ++ "|sha256-hex" = (u2 ++ secretSalt) ++ "|sha256-hex" := h
  have h2 : u1 ++ secretSalt = u2 ++ secretSalt := string_append_right_cancel _ _ _ h1
  exact string_append_right_cancel _ _ _ h2

/-- C1: encrypting a non-empty string field under the key derived from a
non-empty user id and decrypting it with the same user id returns the
original string exactly. -/
theorem C1_encrypt_decrypt_roundtrip (s u : String) (hs : s ≠ "") (hu : u ≠ "") :
    ∃ ct, encryptField (.str s) u = .ok ct ∧ decryptField ct u = .str s := by
  refine ⟨.enc (generateKeyStr u) s, ?_, ?_⟩
  · simp [encryptField, generateKey, hs, hu]
  · simp [decryptField, generateKey, hu, aesDecrypt, hs]

/-- C1 witness: the round trip evaluated on the title "Hi" and user id
user1. -/
theorem C1_encrypt_decrypt_roundtrip_witness :
    ∃ ct, encryptField (.str "Hi") "user1" = .ok ct ∧
      decryptField ct "user1" = .str "Hi" :=
  C1_encrypt_decrypt_roundtrip "Hi" "user1" (by decide) (by decide)

/-- C2 counterexample: the claim states that for every non-empty s the
wrong-key decryption never returns s.  Taking s to be the sentinel string
itself refutes this: the journaled plaintext is the literal text
"[Decryption Failed]", the wrong-key decryption returns the sentinel, and
that return value is exactly s. -/
theorem C2_sentinel_plaintext_counterexample :
    ∃ ct, encryptField (.str decryptionFailedSentinel) "userA" = .ok ct ∧
      decryptField ct "userB" = .str decryptionFailedSentinel :=
  ⟨.enc (generateKeyStr "userA") decryptionFailedSentinel, by rfl, by rfl⟩

/-- C2 amended: decrypting a field encrypted for user u1 with a different
user id u2 returns the sentinel string and never throws (decryptField is
total by construction), and for every plaintext other than the sentinel
string itself the result differs from the plaintext. -/
theorem C2_wrong_key_returns_sentinel (s u1 u2 : String)
    (hs : s ≠ "") (hu1 : u1 ≠ "") (hu2 : u2 ≠ "") (hne : u1 ≠ u2) :
    ∃ ct, encryptField (.str s) u1 = .ok ct ∧
      decryptField ct u2 = .str decryptionFailedSentinel ∧
      (s ≠ decryptionFailedSentinel → decryptField ct u2 ≠ .str s) := by
  have hkey : generateKeyStr u2 ≠ generateKeyStr u1 := by
    intro h
    exact hne (generateKeyStr_injective u1 u2 h.symm)
  refine ⟨.enc (generateKeyStr u1) s, ?_, ?_, ?_⟩
  · simp [encryptField, generateKey, hs, hu1]
  · simp [decryptField, generateKey, hu2, aesDecrypt, hkey]
  · intro hsent
    simp [decryptField, generateKey, hu2, aesDecrypt, hkey]
    exact fun h => hsent h.symm

/-- C2 witness: the amended statement evaluated at plaintext "Hi" and the
distinct user ids userA and userB. -/
theorem C2_wrong_key_returns_sentinel_witness :
    ∃ ct, encryptField (.str "Hi") "userA" = .ok ct ∧
      decryptField ct "userB" = .str decryptionFailedSentinel ∧
      ("Hi" ≠ decryptionFailedSentinel → decryptField ct "userB" ≠ .str "Hi") :=
  C2_wrong_key_returns_sentinel "Hi" "userA" "userB"
    (by decide) (by decide) (by decide) (by decide)

/-- decryptJournalEntry always reports success: decryptField converts
every cryptographic failure into the sentinel, so the catch branch of the
source is dead code. -/
theorem decryptJournalEntry_success (e : Entry) (u : String) :
    (decryptJournalEntry e u).success = true := by
  unfold decryptJournalEntry
  by_cases h : e.hasEncryptedFields <;> simp [h]

/-- The batch loop never records an error and maps decryptJournalEntry
over the input positionally. -/
theorem decryptEntriesGo_spec (u : String) (es : List Entry) (i : Nat) :
    decryptEntriesGo u i es
      = (es.map (fun e => (decryptJournalEntry e u).decryptedEntry), []) := by
  induction es generalizing i with
  | nil => rfl
  | cons e rest ih =>
    simp [decryptEntriesGo, ih, decryptJournalEntry_success e u]

/-- C8 amended: batch decryption preserves the length of the input list
and an entry whose field decryption fails is kept in the output with
sentinel field content; however no index or id is ever recorded, because
decryptField converts per-field failures into sentinel values and
decryptJournalEntry therefore always reports success, leaving the errors
list empty. -/
theorem C8_batch_preserves_length_but_never_records_errors
    (es : List Entry) (u : String) :
    (decryptJournalEntries es u).decryptedEntries.length = es.length ∧
    (decryptJournalEntries es u).errors = [] ∧
    (decryptJournalEntries es u).success = true := by
  unfold decryptJournalEntries
  rw [decryptEntriesGo_spec]
  simp

/-- C8 counterexample: a one-element batch whose title was encrypted for
userA, decrypted as userB.  The entry survives with sentinel title
content, but the errors list stays empty, so its index and id are not
recorded as the claim requires. -/
theorem C8_failing_entry_not_recorded :
    (decryptJournalEntries [wrongKeyEntry] "userB").decryptedEntries
      = [⟨.str decryptionFailedSentinel, .null, false, none,
          [("id", .str "e1"), ("mood", .str "happy")]⟩] ∧
    (decryptJournalEntries [wrongKeyEntry] "userB").errors = [] ∧
    (decryptJournalEntries [wrongKeyEntry] "userB").success = true := by
  refine ⟨?_, rfl, rfl⟩
  rfl

/-- Either branch around encryptField succeeds for a non-empty uid, and a
truthy plain string comes back as the tagged encrypted object. -/
theorem encryptBranch_total (f : JSField) (u : String) (hu : u ≠ "") :
    ∃ v, (if f.truthy then encryptField f u else Except.ok f) = .ok v ∧
      (∀ s, f = .str s → s ≠ "" → v = .enc (generateKeyStr u) s) ∧
      (f.truthy = false → v = f) := by
  cases f with
  | null =>
    refine ⟨.null, ?_, ?_, fun _ => rfl⟩
    · simp [JSField.truthy]
    · intro s h hs; cases h
  | str s =>
    by_cases hs : s = ""
    · refine ⟨.str s, ?_, ?_, fun _ => rfl⟩
      · simp [JSField.truthy, hs]
      · intro t ht hts
        cases ht
        exact absurd hs hts
    · refine ⟨.enc (generateKeyStr u) s, ?_, ?_, ?_⟩
      · simp [JSField.truthy, hs, encryptField, generateKey, hu]
      · intro t ht _
        cases ht
        rfl
      · intro hf
        simp [JSField.truthy, hs] at hf
  | enc k d =>
    refine ⟨.enc k d, ?_, ?_, fun _ => rfl⟩
    · simp [JSField.truthy, encryptField]
    · intro s h; cases h

/-- C9: for every entry and non-empty user id, encryptJournalEntry
succeeds and the produced entry differs from the input only in title and
content (replaced by their tagged encrypted form when they are truthy
plain strings, kept as-is when falsy) and in the added encryption marker
and field-name list; every other field is passed through verbatim. -/
theorem C9_encrypt_entry_frame (e : Entry) (u : String) (hu : u ≠ "") :
    ∃ r, encryptJournalEntry e u = ⟨true, some r, none⟩ ∧
      r.others = e.others ∧
      r.hasEncryptedFields = true ∧
      r.encryptedFields = some ["title", "content"] ∧
      (∀ s, e.title = .str s → s ≠ "" → r.title = .enc (generateKeyStr u) s) ∧
      (∀ s, e.content = .str s → s ≠ "" → r.content = .enc (generateKeyStr u) s) ∧
      (e.title.truthy = false → r.title = e.title) ∧
      (e.content.truthy = false → r.content = e.content) := by
  obtain ⟨t, ht, htp, htf⟩ := encryptBranch_total e.title u hu
  obtain ⟨c, hc, hcp, hcf⟩ := encryptBranch_total e.content u hu
  refine ⟨⟨t, c, true, some ["title", "content"], e.others⟩, ?_, rfl, rfl, rfl,
          ?_, ?_, ?_, ?_⟩
  · unfold encryptJournalEntry encryptJournalEntryE
    rw [ht, hc]
  · intro s hst hs; exact htp s hst hs
  · intro s hst hs; exact hcp s hst hs
  · intro hf; exact htf hf
  · intro hf; exact hcf hf

/-- C9 witness: the frame property evaluated on a sample entry carrying
id, mood and privacy-flag fields, for user id user1. -/
theorem C9_encrypt_entry_frame_witness :
    ∃ r, encryptJournalEntry sampleEntry "user1" = ⟨true, some r, none⟩ ∧
      r.others = sampleEntry.others ∧
      r.hasEncryptedFields = true ∧
      r.encryptedFields = some ["title", "content"] ∧
      (∀ s, sampleEntry.title = .str s → s ≠ "" →
        r.title = .enc (generateKeyStr "user1") s) ∧
      (∀ s, sampleEntry.content = .str s → s ≠ "" →
        r.content = .enc (generateKeyStr "user1") s) ∧
      (sampleEntry.title.truthy = false → r.title = sampleEntry.title) ∧
      (sampleEntry.content.truthy = false → r.content = sampleEntry.content) :=
  C9_encrypt_entry_frame sampleEntry "user1" (by decide)

open Journalite.Analytics

/-- The head of an ascending insertion is either the inserted element or
the previous head. -/
theorem insertAscStr_head (keyOf : α → String) (x : α) (ys : List α) :
    (insertAscStr keyOf x ys).head? = some x ∨
    (insertAscStr keyOf x ys).head? = ys.head? := by
  cases ys with
  | nil => left; rfl
  | cons z zs =>
    by_cases h : keyOf x ≤ keyOf z
    · left; simp [insertAscStr, h]
    · right; simp [insertAscStr, h]

/-- Ascending insertion preserves the sortedness chain. -/
theorem insertAscStr_chain (keyOf : α → String) (x : α) (l : List α)
    (h : List.Chain' (fun a b => keyOf a ≤ keyOf b) l) :
    List.Chain' (fun a b => keyOf a ≤ keyOf b) (insertAscStr keyOf x l) := by
  induction l with
  | nil => simp [insertAscStr]
  | cons y ys ih =>
    by_cases hxy : keyOf x ≤ keyOf y
    · simp only [insertAscStr, if_pos hxy]
      exact List.chain'_cons.mpr ⟨hxy, h⟩
    · have hyx : keyOf y ≤ keyOf x := le_of_not_le hxy
      have hys : List.Chain' (fun a b => keyOf a ≤ keyOf b) ys :=
        (List.chain'_cons'.mp h).2
      have hhead := (List.chain'_cons'.mp h).1
      simp only [insertAscStr, if_neg hxy]
      refine List.chain'_cons'.mpr ⟨?_, ih hys⟩
      intro z hz
      rcases insertAscStr_head keyOf x ys with hh | hh
      · rw [hh] at hz
        simp only [Option.mem_def, Option.some_inj] at hz
        subst hz
        exact hyx
      · rw [hh] at hz
        exact hhead z hz

/-- The result of the modelled stable date sort is ascending. -/
theorem sortAscStr_chain (keyOf : α → String) (l : List α) :
    List.Chain' (fun a b => keyOf a ≤ keyOf b) (sortAscStr keyOf l) := by
  induction l with
  | nil => simp [sortAscStr]
  | cons x xs ih => exact insertAscStr_chain keyOf x _ (by simpa [sortAscStr] using ih)

/-- C6: the Insights.js Tier-3 sentiment-over-time uses the fixed polarity
table (happy 1, grateful 0.7, calm 0.3, neutral 0, anxious -0.3, sad
-0.7, angry -0.9), its output is sorted ascending by date, every reported
point is the arithmetic mean of the polarity scores of the entries
grouped under its calendar date, and in particular two entries stored on
2025-01-01 with moods happy and sad yield the single point with score
3/20 = 0.15 for that date.  Arithmetic is modelled over exact
rationals. -/
theorem C6_sentiment_over_time (entries : List AEntry) (today : String) :
    (sentimentScore (some "happy") = 1 ∧
     sentimentScore (some "grateful") = (7 : Rat)/10 ∧
     sentimentScore (some "calm") = (3 : Rat)/10 ∧
     sentimentScore (some "neutral") = 0 ∧
     sentimentScore (some "anxious") = -((3 : Rat)/10) ∧
     sentimentScore (some "sad") = -((7 : Rat)/10) ∧
     sentimentScore (some "angry") = -((9 : Rat)/10)) ∧
    List.Chain' (fun p q => p.date ≤ q.date)
      (generateSimpleSentimentAnalysis entries today).overTime ∧
    (∀ p, p ∈ (generateSimpleSentimentAnalysis entries today).overTime →
      p.sentiment = (dateScores entries today p.date).sum /
        ((dateScores entries today p.date).length : Rat)) ∧
    (generateSimpleSentimentAnalysis
        [moodOnDate "happy" "2025-01-01", moodOnDate "sad" "2025-01-01"]
        "2025-01-02").overTime
      = [⟨"2025-01-01", 3/20⟩] := by
  refine ⟨by refine ⟨rfl, rfl, rfl, rfl, rfl, rfl, rfl⟩, ?_, ?_, ?_⟩
  · have hchain := sortAscStr_chain (fun d : String => d)
      (firstSeen ((sentimentDataOf entries today).map (fun p => p.1)))
    simp only [generateSimpleSentimentAnalysis]
    rw [List.chain'_map]
    exact hchain
  · intro p hp
    simp only [generateSimpleSentimentAnalysis, List.mem_map] at hp
    obtain ⟨d, _, rfl⟩ := hp
    rfl
  · have hred : (generateSimpleSentimentAnalysis
        [moodOnDate "happy" "2025-01-01", moodOnDate "sad" "2025-01-01"]
        "2025-01-02").overTime
        = [⟨"2025-01-01",
            ([(1 : Rat), -((7:Rat)/10)].sum) /
              (([(1 : Rat), -((7:Rat)/10)].length : Nat) : Rat)⟩] := rfl
    rw [hred]
    norm_num [List.sum_cons, List.sum_nil]

/-- C6 witness: the mean property applied at the concrete scenario-B
entry list and its single output point. -/
theorem C6_sentiment_over_time_witness :
    (⟨"2025-01-01", 3/20⟩ : SentPoint).sentiment
      = (dateScores [moodOnDate "happy" "2025-01-01", moodOnDate "sad" "2025-01-01"]
          "2025-01-02" "2025-01-01").sum /
        ((dateScores [moodOnDate "happy" "2025-01-01", moodOnDate "sad" "2025-01-01"]
          "2025-01-02" "2025-01-01").length : Rat) :=
  (C6_sentiment_over_time
    [moodOnDate "happy" "2025-01-01", moodOnDate "sad" "2025-01-01"]
    "2025-01-02").2.2.1 ⟨"2025-01-01", 3/20⟩
    (by
      rw [(C6_sentiment_over_time
        [moodOnDate "happy" "2025-01-01", moodOnDate "sad" "2025-01-01"]
        "2025-01-02").2.2.2]
      exact List.mem_singleton.mpr rfl)

/-- A missing mood never produces an empty mood label: the fallback is the
literal neutral. -/
theorem moodOrNeutral_ne_empty (e : AEntry) : moodOrNeutral e ≠ "" := by
  unfold moodOrNeutral
  cases e.mood with
  | none => decide
  | some s =>
    by_cases hs : s = "" <;> simp [hs]

/-- Rewriting moodOrNeutral when the mood field is known. -/
theorem moodOrNeutral_some (m : String) (e : AEntry) (h : e.mood = some m) :
    moodOrNeutral e = if m = "" then "neutral" else m := by
  unfold moodOrNeutral
  rw [h]

/-- Replacing an entry's mood by its neutral-defaulted label leaves the
label unchanged. -/
theorem moodOrNeutral_norm (e : AEntry) :
    moodOrNeutral { e with mood := some (moodOrNeutral e) } = moodOrNeutral e := by
  have h : ({ e with mood := some (moodOrNeutral e) } : AEntry).mood
      = some (moodOrNeutral e) := rfl
  rw [moodOrNeutral_some (moodOrNeutral e) _ h, if_neg (moodOrNeutral_ne_empty e)]

/-- C5 counterexample: the claim states that entries without a mood label
are excluded from both numerator and denominator, which would give a lone
happy entry 100 percent when accompanied by a moodless entry.  The
analytics-service Tier-3 fallback instead counts the moodless entry as
neutral and divides by all entries, reporting happy and neutral at 50
percent each; the aiService variant on the same input does exclude the
moodless entry and reports happy at 100 percent, so the two cited
implementations disagree and the claim is false of the first. -/
theorem C5_moodless_entry_counted_as_neutral :
    (analyzeEmotionDistributionSimple [moodOnly "happy", bareEntry]).distribution
      = [⟨"Happy", 50, 1, "😊", "moderate", "stable"⟩,
         ⟨"Neutral", 50, 1, "😐", "moderate", "stable"⟩] ∧
    aiAnalyzeEmotionDistribution [moodOnly "happy", bareEntry]
      = [⟨"Happy", 100, "😊"⟩] := by
  constructor
  · have hpre : (analyzeEmotionDistributionSimple [moodOnly "happy", bareEntry]).distribution
        = sortDescBy (fun d => d.value)
          [⟨"Happy", jsRound (((1 : Nat) : Rat) / ((2 : Nat) : Rat) * 100), 1,
            "😊", "moderate", "stable"⟩,
           ⟨"Neutral", jsRound (((1 : Nat) : Rat) / ((2 : Nat) : Rat) * 100), 1,
            "😐", "moderate", "stable"⟩] := rfl
    have h50 : jsRound (((1 : Nat) : Rat) / ((2 : Nat) : Rat) * 100) = 50 := by
      norm_num [jsRound]
    rw [hpre, h50]
    rfl
  · have hpre : aiAnalyzeEmotionDistribution [moodOnly "happy", bareEntry]
        = sortDescBy (fun d => d.value)
          [⟨"Happy", jsRound (((1 : Nat) : Rat) / ((1 : Nat) : Rat) * 100), "😊"⟩] := rfl
    have h100 : jsRound (((1 : Nat) : Rat) / ((1 : Nat) : Rat) * 100) = 100 := by
      norm_num [jsRound]
    rw [hpre, h100]
    rfl

/-- C5 amended: the aiService Tier-3 emotion distribution excludes
entries without a truthy mood from numerator and denominator alike
(stated as invariance under dropping them), while the analytics-service
Tier-3 fallback counts every entry, defaulting a missing or empty mood to
neutral (stated as invariance under making that default explicit); on
entries that all carry moods the two agree, and three entries with moods
happy, sad, happy yield happy at 67 percent and sad at 33 percent in
both. -/
theorem C5_emotion_distribution_amended :
    ((analyzeEmotionDistributionSimple
        [moodOnly "happy", moodOnly "sad", moodOnly "happy"]).distribution
      = [⟨"Happy", 67, 2, "😊", "moderate", "stable"⟩,
         ⟨"Sad", 33, 1, "😢", "moderate", "stable"⟩]) ∧
    (aiAnalyzeEmotionDistribution [moodOnly "happy", moodOnly "sad", moodOnly "happy"]
      = [⟨"Happy", 67, "😊"⟩, ⟨"Sad", 33, "😢"⟩]) ∧
    (∀ entries : List AEntry,
      aiAnalyzeEmotionDistribution (entries.filter moodTruthy)
        = aiAnalyzeEmotionDistribution entries) ∧
    (∀ entries : List AEntry,
      analyzeEmotionDistributionSimple
          (entries.map (fun e => { e with mood := some (moodOrNeutral e) }))
        = analyzeEmotionDistributionSimple entries) := by
  refine ⟨?_, ?_, ?_, ?_⟩
  · have hpre : (analyzeEmotionDistributionSimple
        [moodOnly "happy", moodOnly "sad", moodOnly "happy"]).distribution
        = sortDescBy (fun d => d.value)
          [⟨"Happy", jsRound (((2 : Nat) : Rat) / ((3 : Nat) : Rat) * 100), 2,
            "😊", "moderate", "stable"⟩,
           ⟨"Sad", jsRound (((1 : Nat) : Rat) / ((3 : Nat) : Rat) * 100), 1,
            "😢", "moderate", "stable"⟩] := rfl
    have h67 : jsRound (((2 : Nat) : Rat) / ((3 : Nat) : Rat) * 100) = 67 := by
      norm_num [jsRound]
    have h33 : jsRound (((1 : Nat) : Rat) / ((3 : Nat) : Rat) * 100) = 33 := by
      norm_num [jsRound]
    rw [hpre, h67, h33]
    rfl
  · have hpre : aiAnalyzeEmotionDistribution
        [moodOnly "happy", moodOnly "sad", moodOnly "happy"]
        = sortDescBy (fun d => d.value)
          [⟨"Happy", jsRound (((2 : Nat) : Rat) / ((3 : Nat) : Rat) * 100), "😊"⟩,
           ⟨"Sad", jsRound (((1 : Nat) : Rat) / ((3 : Nat) : Rat) * 100), "😢"⟩] := rfl
    have h67 : jsRound (((2 : Nat) : Rat) / ((3 : Nat) : Rat) * 100) = 67 := by
      norm_num [jsRound]
    have h33 : jsRound (((1 : Nat) : Rat) / ((3 : Nat) : Rat) * 100) = 33 := by
      norm_num [jsRound]
    rw [hpre, h67, h33]
    rfl
  · intro entries
    simp only [aiAnalyzeEmotionDistribution, List.filter_filter, Bool.and_self]
  · intro entries
    have hfun : (fun e => moodOrNeutral { e with mood := some (moodOrNeutral e) })
        = fun e : AEntry => moodOrNeutral e :=
      funext (fun e => moodOrNeutral_norm e)
    simp only [analyzeEmotionDistributionSimple]
    rw [List.map_map, List.length_map]
    simp only [Function.comp_def]
    rw [hfun]

/-- C3: with the remote AI tier unavailable (no Gemini credential, which
also makes the secondary backend irrelevant to this method), analyzeMood
on the non-empty text hello does not return a Tier-3 heuristic result:
it raises a TypeError, because the heuristic method it calls exists only
inside a block comment.  This contradicts the claim that every capability
with a Tier-3 implementation returns a schema-complete result, so the
code is at fault. -/
theorem C3_mood_tier3_heuristic_missing :
    analyzeMood false none "hello"
      = .error (.typeError "this.analyzeMoodWithHeuristics is not a function") := rfl

/-- C7: with zero entries the comprehensive-insights envelope reports
success and carries the empty bundle, whose six capability keys are all
present (the Insights structure is total, so none can be undefined) and
each bound to an empty list or empty-structure value; the cache is not
written on this path. -/
theorem C7_zero_entries_schema_complete (userId : String) (nowDate : JSDate) :
    generateComprehensiveInsightsLocal userId [] nowDate
      = (⟨true, getEmptyInsights⟩, none) ∧
    getEmptyInsights.emotionDistribution = [] ∧
    getEmptyInsights.sentimentAnalysis = [] ∧
    getEmptyInsights.emotionsOverTime = [] ∧
    getEmptyInsights.wordCloud = [] ∧
    getEmptyInsights.writingPatterns = .emptyStats 0 0 0 ∧
    getEmptyInsights.moodCorrelations = emptyMoodCorrelations :=
  ⟨rfl, rfl, rfl, rfl, rfl, rfl, rfl⟩
